import Mathlib

/-!
Verification of the web-form-automation repository.

This file gives a shallow embedding, in Lean 4, of the pure/control-flow
parts of the repository that the specification talks about:

* `src/config.py` — the numeric constants and the checkbox-name template;
* `src/form_filler.py` — the vote-value translation, the checkbox-name
  generation (`_get_checkbox_name`), and the cell-by-cell control flow of
  `fill_voting_form`, with the browser click modelled as an oracle;
* `src/data_handler.py` — CSV loading/validation and batch splitting;
* `src/enhanced_automation.py` — the per-batch retry loop of
  `_process_data_batches` and its overall-success predicate;
* `src/complete_toto_automation.py` — the batch loop of
  `_process_all_batches`;
* `src/action_manager.py` — the `ActionStep`/`ActionSequence` data model,
  its JSON (de)serialization, and `ActionFileManager.save_actions` /
  `load_actions`.

Side-effecting browser calls are modelled as oracles (functions supplied as
parameters); state that the Python mutates is passed explicitly.  Python
integers are `Int`/`Nat`, Python `float` fields are `Rat` (the JSON data
model is exact), fallible code returns `Option`/`Except`.
-/

/-! ## Configuration constants (src/config.py) -/

/-- Config.MAX_SETS_PER_BATCH (src/config.py line 22). -/
def MAX_SETS_PER_BATCH : Nat := 10

/-- Config.MAX_GAMES_PER_SET (src/config.py line 23). -/
def MAX_GAMES_PER_SET : Nat := 13

/-- Config.EXPECTED_COLUMNS (src/config.py line 99). -/
def EXPECTED_COLUMNS : Nat := 13

/-- Config.VALID_VALUES (src/config.py line 100). -/
def VALID_VALUES : List Int := [0, 1, 2]

/-- Config.CHECKBOX_PATTERNS['standard'] (src/config.py line 29). -/
def CHECKBOX_PATTERN_STANDARD : String := "chkbox_{game}_{set}_{value}"

/-! ## Python str.format with named fields

`_get_checkbox_name` calls `str.format` on the template above.  We embed
the relevant fragment of `str.format`: a scan over the template that copies
literal characters and substitutes `\x7bname\x7d` fields via a lookup
function.  The recursion is fuel-indexed (fuel = template length suffices,
because every step consumes at least one character). -/

def formatCharsL (f : String → String) : Nat → List Char → List Char
  | 0, _ => []
  | _ + 1, [] => []
  | fuel + 1, c :: rest =>
    if c = '{' then
      (f (String.mk (rest.takeWhile (· ≠ '}')))).data ++
        formatCharsL f fuel ((rest.dropWhile (· ≠ '}')).drop 1)
    else
      c :: formatCharsL f fuel rest

/-- Python `template.format(...)` restricted to simple named fields. -/
def pyFormat (template : String) (f : String → String) : String :=
  String.mk (formatCharsL f template.data.length template.data)

/-- FormFiller._get_checkbox_name (src/form_filler.py lines 169–186):
`Config.CHECKBOX_PATTERNS['standard'].format(game=set_index,
set=game_index, value=vote_value)` — note that the source deliberately
passes `set_index` for the `game` placeholder and `game_index` for the
`set` placeholder. -/
def get_checkbox_name (gameIndex setIndex : Nat) (voteValue : Int) : String :=
  pyFormat CHECKBOX_PATTERN_STANDARD fun name =>
    if name = "game" then toString setIndex
    else if name = "set" then toString gameIndex
    else if name = "value" then toString voteValue
    else ""

theorem pyFormat_checkbox_pattern (f : String → String) :
    pyFormat CHECKBOX_PATTERN_STANDARD f =
      "chkbox_" ++ (f "game" ++ ("_" ++ (f "set" ++ ("_" ++ (f "value" ++ ""))))) := rfl

/-- C5: FormFiller._get_checkbox_name(game_index, set_index, vote_value) is a
pure function of its three integer arguments and returns exactly
`"chkbox_" ++ set_index ++ "_" ++ game_index ++ "_" ++ vote_value` — set
index in the first slot, game index in the second — matching the documented
template `chkbox_\x7bset\x7d_\x7bgame\x7d_\x7bvalue\x7d`. -/
theorem c5_checkbox_name (gameIndex setIndex : Nat) (voteValue : Int) :
    get_checkbox_name gameIndex setIndex voteValue =
      "chkbox_" ++ toString setIndex ++ "_" ++ toString gameIndex ++ "_" ++
        toString voteValue := by
  have h := pyFormat_checkbox_pattern fun name =>
    if name = "game" then toString setIndex
    else if name = "set" then toString gameIndex
    else if name = "value" then toString voteValue
    else ""
  unfold get_checkbox_name
  rw [h]
  simp only [reduceIte]
  apply String.ext
  simp [String.data_append, List.append_assoc]

/-! ## Vote-value translation and form filling (src/form_filler.py)

`fill_voting_form` (lines 29–96) walks over game indexes 0..12 (outer loop)
and set indexes 0..len(batch)-1 (inner loop, with a `break` once the set
index reaches `MAX_SETS_PER_BATCH`), translates each CSV cell to the page's
vote value, and clicks the corresponding checkbox via `_click_checkbox`.
`_click_checkbox` (lines 134–167) catches every exception and returns a
boolean, so it is modelled as a total oracle `click : game → set → value →
Bool`.  The embedding additionally returns the list of click attempts, in
order, so that claims about which checkboxes get clicked can be stated. -/

/-- The CSV-to-page vote-value translation (src/form_filler.py lines 71–79):
CSV 1 ↦ page 0, CSV 0 ↦ page 1, CSV 2 ↦ page 2, anything else is an error
(the Python logs and returns False; modelled as `none`). -/
def voteMap (csvValue : Int) : Option Int :=
  if csvValue = 1 then some 0
  else if csvValue = 0 then some 1
  else if csvValue = 2 then some 2
  else none

/-- The (game, set) iteration order of `fill_voting_form`: games (rows)
first, then sets (columns); the inner loop runs over set indexes
`0..numSets-1`. -/
def cellOrder (numGames numSets : Nat) : List (Nat × Nat) :=
  (List.range numGames).flatMap fun g => (List.range numSets).map fun s => (g, s)

/-- The raw CSV cell `batch_data[set_index][game_index]`, `none` when the
row does not exist or is too short (the `game_index >= len(...)` check at
line 60). -/
def cellRaw (batch : List (List Int)) (gameIndex setIndex : Nat) : Option Int :=
  batch[setIndex]?.bind fun row => row[gameIndex]?

/-- The page vote value for a cell: raw cell translated by `voteMap`. -/
def cellVote (batch : List (List Int)) (gameIndex setIndex : Nat) : Option Int :=
  (cellRaw batch gameIndex setIndex).bind voteMap

/-- One required cell is handled successfully iff it exists, its value is
translatable, and the click oracle succeeds on the translated value. -/
def cellClickOk (click : Nat → Nat → Int → Bool) (batch : List (List Int))
    (gameIndex setIndex : Nat) : Bool :=
  match cellVote batch gameIndex setIndex with
  | none => false
  | some v => click gameIndex setIndex v

/-- The body of `fill_voting_form` over the remaining cells, returning the
result boolean together with the ordered list of click attempts
`(game, set, translated value)`.  Mirrors lines 49–92 of
src/form_filler.py: a missing game in the row (line 60–62), an invalid CSV
value (line 77–79) or a failed click (line 81–84) each return False
immediately; an invalid cell returns before any click for that cell. -/
def fillGo (click : Nat → Nat → Int → Bool) (batch : List (List Int)) :
    List (Nat × Nat) → Bool × List (Nat × Nat × Int)
  | [] => (true, [])
  | (g, s) :: rest =>
    match batch[s]? with
    | none => (false, [])
    | some row =>
      match row[g]? with
      | none => (false, [])
      | some csvValue =>
        match voteMap csvValue with
        | none => (false, [])
        | some v =>
          if click g s v then
            ((fillGo click batch rest).1, (g, s, v) :: (fillGo click batch rest).2)
          else
            (false, [(g, s, v)])

/-- FormFiller.fill_voting_form (src/form_filler.py lines 29–96), with the
click modelled by an oracle.  `num_games = Config.MAX_GAMES_PER_SET`,
`num_sets = len(batch_data)` and the inner loop `break`s at
`Config.MAX_SETS_PER_BATCH`. -/
def fill_voting_form (click : Nat → Nat → Int → Bool) (batch : List (List Int)) :
    Bool × List (Nat × Nat × Int) :=
  fillGo click batch (cellOrder MAX_GAMES_PER_SET (min batch.length MAX_SETS_PER_BATCH))

theorem fillGo_cons (click : Nat → Nat → Int → Bool) (batch : List (List Int))
    (g s : Nat) (rest : List (Nat × Nat)) :
    fillGo click batch ((g, s) :: rest) =
      match cellVote batch g s with
      | none => (false, [])
      | some v =>
        if click g s v then
          ((fillGo click batch rest).1, (g, s, v) :: (fillGo click batch rest).2)
        else
          (false, [(g, s, v)]) := by
  rw [fillGo]
  unfold cellVote cellRaw
  cases hs : batch[s]? with
  | none => rfl
  | some row =>
    cases hg : row[g]? with
    | none => simp [hg]
    | some csvValue =>
      cases hm : voteMap csvValue with
      | none => simp [hg, hm]
      | some v => simp [hg, hm]

theorem fillGo_fst_true_iff (click : Nat → Nat → Int → Bool)
    (batch : List (List Int)) (cells : List (Nat × Nat)) :
    (fillGo click batch cells).1 = true ↔
      ∀ p ∈ cells, cellClickOk click batch p.1 p.2 = true := by
  induction cells with
  | nil => simp [fillGo]
  | cons p rest ih =>
    obtain ⟨g, s⟩ := p
    rw [fillGo_cons]
    cases hv : cellVote batch g s with
    | none =>
      simp only [List.mem_cons]
      constructor
      · intro h; exact absurd h (by simp)
      · intro h
        have := h (g, s) (Or.inl rfl)
        simp [cellClickOk, hv] at this
    | some v =>
      by_cases hc : click g s v
      · simp only [hc, if_true, List.mem_cons]
        rw [ih]
        constructor
        · intro h q hq
          rcases hq with hq | hq
          · subst hq; simp [cellClickOk, hv, hc]
          · exact h q hq
        · intro h q hq
          exact h q (Or.inr hq)
      · simp only [hc, if_false]
        constructor
        · intro h; exact absurd h (by simp)
        · intro h
          have := h (g, s) (List.mem_cons_self _ _)
          simp [cellClickOk, hv] at this
          exact absurd this hc

theorem fillGo_mem_trace (click : Nat → Nat → Int → Bool)
    (batch : List (List Int)) (cells : List (Nat × Nat)) (g s : Nat) (v : Int)
    (h : (g, s, v) ∈ (fillGo click batch cells).2) :
    cellVote batch g s = some v := by
  induction cells with
  | nil => simp [fillGo] at h
  | cons p rest ih =>
    obtain ⟨g2, s2⟩ := p
    rw [fillGo_cons] at h
    cases hv : cellVote batch g2 s2 with
    | none => rw [hv] at h; dsimp only at h; simp at h
    | some v2 =>
      rw [hv] at h
      dsimp only at h
      by_cases hc : click g2 s2 v2
      · rw [if_pos hc] at h
        simp only [List.mem_cons, Prod.mk.injEq] at h
        rcases h with ⟨rfl, rfl, rfl⟩ | h
        · exact hv
        · exact ih h
      · rw [if_neg hc] at h
        simp only [List.mem_singleton, Prod.mk.injEq] at h
        obtain ⟨rfl, rfl, rfl⟩ := h
        exact hv

/-- C4: in FormFiller.fill_voting_form every CSV cell value is translated by
the fixed bijection 1 ↦ 0, 0 ↦ 1, 2 ↦ 2 before the corresponding checkbox
is clicked, and any cell value outside 0, 1, 2 is rejected: the mapping
takes exactly those values, every click in the attempt trace carries the
translated value of its cell, and a cell whose raw value does not translate
makes the whole call return False with no click ever issued for that
cell. -/
theorem c4_vote_mapping :
    (voteMap 1 = some 0 ∧ voteMap 0 = some 1 ∧ voteMap 2 = some 2) ∧
    (∀ v : Int, v ≠ 0 → v ≠ 1 → v ≠ 2 → voteMap v = none) ∧
    (∀ click batch g s v, (g, s, v) ∈ (fill_voting_form click batch).2 →
      cellVote batch g s = some v) ∧
    (∀ click batch g s csvValue,
      (g, s) ∈ cellOrder MAX_GAMES_PER_SET (min batch.length MAX_SETS_PER_BATCH) →
      cellRaw batch g s = some csvValue → voteMap csvValue = none →
      (fill_voting_form click batch).1 = false ∧
        ∀ v, (g, s, v) ∉ (fill_voting_form click batch).2) := by
  refine ⟨⟨rfl, rfl, rfl⟩, ?_, ?_, ?_⟩
  · intro v h0 h1 h2
    simp [voteMap, h0, h1, h2]
  · intro click batch g s v h
    exact fillGo_mem_trace click batch _ g s v h
  · intro click batch g s csvValue hmem hraw hnone
    have hv : cellVote batch g s = none := by
      simp [cellVote, hraw, hnone]
    constructor
    · cases hres : (fill_voting_form click batch).1 with
      | false => rfl
      | true =>
        have := (fillGo_fst_true_iff click batch _).mp hres (g, s) hmem
        simp [cellClickOk, hv] at this
    · intro v hmemTrace
      have := fillGo_mem_trace click batch _ g s v hmemTrace
      rw [hv] at this
      exact Option.noConfusion this

/-- C4 witness: a batch containing the invalid CSV value 5 at game 0, set 0
is rejected and no checkbox for that cell is ever clicked. -/
theorem c4_witness :
    (fill_voting_form (fun _ _ _ => true) [[5]]).1 = false ∧
      ∀ v, (0, 0, v) ∉ (fill_voting_form (fun _ _ _ => true) [[5]]).2 :=
  c4_vote_mapping.2.2.2 (fun _ _ _ => true) [[5]] 0 0 5 (by decide) (by decide)
    (by decide)

/-- C6: FormFiller.fill_voting_form returns True exactly when every required
(game, set) cell in the iteration range exists, translates, and its click
succeeds; in particular a single failed click (checkbox not found or not
registered) makes the whole batch fail. -/
theorem c6_fill_success_iff (click : Nat → Nat → Int → Bool)
    (batch : List (List Int)) :
    (fill_voting_form click batch).1 = true ↔
      ∀ p ∈ cellOrder MAX_GAMES_PER_SET (min batch.length MAX_SETS_PER_BATCH),
        cellClickOk click batch p.1 p.2 = true :=
  fillGo_fst_true_iff click batch _

/-- C6 witness: with an always-succeeding click oracle, a one-row batch of
valid values fills successfully. -/
theorem c6_witness :
    (fill_voting_form (fun _ _ _ => true)
      [[1, 0, 2, 1, 0, 2, 1, 0, 2, 1, 0, 2, 1]]).1 = true :=
  (c6_fill_success_iff (fun _ _ _ => true)
    [[1, 0, 2, 1, 0, 2, 1, 0, 2, 1, 0, 2, 1]]).mpr (by decide)

/-! ## Batch-loop orchestrator (src/enhanced_automation.py lines 444–561)

`_process_data_batches` iterates over the batches; for each batch a
`while not batch_success and retry_count <= self.max_retries` loop calls
`_process_single_batch_basic`, which can return True, return False, or
raise (caught by the loop).  A per-attempt outcome oracle models this.  The
mutable `processing_stats` dictionary is passed explicitly. -/

/-- Outcome of one `_process_single_batch_basic(batch)` attempt: returned
True, returned False, or raised an exception (caught at lines 533–536). -/
inductive AttemptOutcome where
  | success
  | failure
  | exn
deriving DecidableEq

/-- The per-batch retry loop (lines 494–536) from attempt number `k`, with
`fuel = max_retries + 1 - k` remaining loop iterations.  Returns the final
`batch_success` flag and the number of attempts actually made.  Each
iteration attempts once; on True it stops, on False or an exception it
increments `retry_count` and loops. -/
def runBatchFrom (outcome : Nat → AttemptOutcome) : Nat → Nat → Bool × Nat
  | 0, _ => (false, 0)
  | fuel + 1, k =>
    match outcome k with
    | .success => (true, 1)
    | _ =>
      ((runBatchFrom outcome fuel (k + 1)).1, (runBatchFrom outcome fuel (k + 1)).2 + 1)

/-- The whole retry loop for one batch: `retry_count` starts at 0 and the
loop runs while `retry_count <= max_retries`, i.e. at most
`max_retries + 1` iterations. -/
def runBatch (outcome : Nat → AttemptOutcome) (maxRetries : Nat) : Bool × Nat :=
  runBatchFrom outcome (maxRetries + 1) 0

/-- The `processing_stats` counters touched by the loop (lines 69–78
initialise them to zero). -/
structure ProcessingStats where
  successful_batches : Nat := 0
  failed_batches : Nat := 0
  processed_sets : Nat := 0
deriving DecidableEq

/-- The `for batch_index, batch in enumerate(batches)` loop (lines 485–548):
a succeeding batch increments `successful_batches` and `processed_sets`, an
exhausted one increments `failed_batches`; either way the loop continues
with the next batch. -/
def processBatchesAux (outcome : Nat → Nat → AttemptOutcome) (maxRetries : Nat) :
    List (List (List Int)) → Nat → ProcessingStats → ProcessingStats
  | [], _, stats => stats
  | batch :: rest, i, stats =>
    processBatchesAux outcome maxRetries rest (i + 1)
      (if (runBatch (outcome i) maxRetries).1 then
        { stats with
            successful_batches := stats.successful_batches + 1,
            processed_sets := stats.processed_sets + batch.length }
      else
        { stats with failed_batches := stats.failed_batches + 1 })

/-- EnhancedAutomation._process_data_batches (src/enhanced_automation.py
lines 444–561) from the point where the batch list is known: an empty list
returns False (line 476–478); otherwise the batches are processed in order
and the run is reported successful iff `successful_batches > 0`
(line 555). -/
def process_data_batches (outcome : Nat → Nat → AttemptOutcome)
    (maxRetries : Nat) (batches : List (List (List Int))) :
    Bool × ProcessingStats :=
  if batches.isEmpty then (false, {})
  else
    let stats := processBatchesAux outcome maxRetries batches 0 {}
    (decide (stats.successful_batches > 0), stats)

/-- The `stats` counters of CompleteTotoAutomation (src/complete_toto_automation.py
line 43 initialises them to zero). -/
structure TotoStats where
  total_batches : Nat := 0
  successful_batches : Nat := 0
  failed_batches : Nat := 0
deriving DecidableEq

/-- The batch loop of `_process_all_batches` (lines 316–337): each batch is
processed once by `_process_single_batch` (modelled as an oracle indexed by
`batch_num = batch_index + 1`); failures do not stop the loop. -/
def processAllBatchesAux (single : Nat → Bool) :
    List (List (List Int)) → Nat → TotoStats → TotoStats
  | [], _, stats => stats
  | _ :: rest, batchNum, stats =>
    processAllBatchesAux single rest (batchNum + 1)
      (if single batchNum then
        { stats with successful_batches := stats.successful_batches + 1 }
      else
        { stats with failed_batches := stats.failed_batches + 1 })

/-- CompleteTotoAutomation._process_all_batches (src/complete_toto_automation.py
lines 295–348): returns False when the voting page is not ready (line 298)
or no batches are available (line 311); otherwise processes every batch and
returns `successful_batches > 0` (lines 339–345). -/
def process_all_batches (single : Nat → Bool) (votingPageReady : Bool)
    (batches : List (List (List Int))) : Bool × TotoStats :=
  if !votingPageReady then (false, {})
  else if batches.isEmpty then (false, {})
  else
    let stats := processAllBatchesAux single batches 1
      { total_batches := batches.length }
    (decide (stats.successful_batches > 0), stats)

theorem runBatchFrom_allFail (outcome : Nat → AttemptOutcome)
    (h : ∀ k, outcome k ≠ AttemptOutcome.success) :
    ∀ fuel k, runBatchFrom outcome fuel k = (false, fuel) := by
  intro fuel
  induction fuel with
  | zero => intro k; rfl
  | succ n ih =>
    intro k
    rw [runBatchFrom]
    cases ho : outcome k with
    | success => exact absurd ho (h k)
    | failure => rw [ih (k + 1)]
    | exn => rw [ih (k + 1)]

theorem processBatchesAux_successful (outcome : Nat → Nat → AttemptOutcome)
    (maxRetries : Nat) :
    ∀ (batches : List (List (List Int))) (i : Nat) (stats : ProcessingStats),
      (processBatchesAux outcome maxRetries batches i stats).successful_batches =
        stats.successful_batches +
          (List.range' i batches.length).countP
            (fun j => (runBatch (outcome j) maxRetries).1) := by
  intro batches
  induction batches with
  | nil => intro i stats; simp [processBatchesAux]
  | cons b rest ih =>
    intro i stats
    rw [processBatchesAux, List.length_cons, List.range'_succ, List.countP_cons, ih]
    by_cases hb : (runBatch (outcome i) maxRetries).1
    · simp [hb]
      try omega
    · simp [hb]
      try omega

theorem processBatchesAux_failed (outcome : Nat → Nat → AttemptOutcome)
    (maxRetries : Nat) :
    ∀ (batches : List (List (List Int))) (i : Nat) (stats : ProcessingStats),
      (processBatchesAux outcome maxRetries batches i stats).failed_batches =
        stats.failed_batches +
          (List.range' i batches.length).countP
            (fun j => !(runBatch (outcome j) maxRetries).1) := by
  intro batches
  induction batches with
  | nil => intro i stats; simp [processBatchesAux]
  | cons b rest ih =>
    intro i stats
    rw [processBatchesAux, List.length_cons, List.range'_succ, List.countP_cons, ih]
    by_cases hb : (runBatch (outcome i) maxRetries).1
    · simp [hb]
      try omega
    · simp [hb]
      try omega

/-- C1: with retry limit `max_retries = N`, a batch whose every attempt
fails (False or exception) is attempted exactly `N + 1` times and ends
unsuccessful; `failed_batches` counts exactly the batches whose retry loops
end unsuccessfully — so the always-failing batch is counted once — and
`successful_batches` still counts every succeeding batch, including those
after the failing one: the run is not aborted. -/
theorem c1_retry_bound (outcome : Nat → Nat → AttemptOutcome) (maxRetries : Nat)
    (batches : List (List (List Int))) (i : Nat)
    (hi : i < batches.length)
    (hfail : ∀ k, outcome i k ≠ AttemptOutcome.success) :
    (runBatch (outcome i) maxRetries).2 = maxRetries + 1 ∧
    (runBatch (outcome i) maxRetries).1 = false ∧
    (process_data_batches outcome maxRetries batches).2.failed_batches =
      ((List.range batches.length).filter
        (fun j => !(runBatch (outcome j) maxRetries).1)).length ∧
    i ∈ (List.range batches.length).filter
        (fun j => !(runBatch (outcome j) maxRetries).1) ∧
    (process_data_batches outcome maxRetries batches).2.successful_batches =
      ((List.range batches.length).filter
        (fun j => (runBatch (outcome j) maxRetries).1)).length := by
  have hrun : runBatch (outcome i) maxRetries = (false, maxRetries + 1) :=
    runBatchFrom_allFail (outcome i) hfail (maxRetries + 1) 0
  have hne : batches.isEmpty = false := by
    cases batches with
    | nil => exact absurd hi (by simp)
    | cons b rest => rfl
  refine ⟨by rw [hrun], by rw [hrun], ?_, ?_, ?_⟩
  · rw [process_data_batches, hne]
    simp only [Bool.false_eq_true, if_false]
    rw [processBatchesAux_failed, ← List.countP_eq_length_filter,
      List.range_eq_range']
    simp
  · rw [List.mem_filter]
    exact ⟨List.mem_range.mpr hi, by rw [hrun]; rfl⟩
  · rw [process_data_batches, hne]
    simp only [Bool.false_eq_true, if_false]
    rw [processBatchesAux_successful, ← List.countP_eq_length_filter,
      List.range_eq_range']
    simp

/-- C1 witness: with max_retries = 3 and an oracle that always returns
failure, the only batch is attempted exactly 4 times. -/
theorem c1_witness :
    (runBatch (fun _ => AttemptOutcome.failure) 3).2 = 3 + 1 :=
  (c1_retry_bound (fun _ _ => AttemptOutcome.failure) 3 [[[0]], [[0]]] 0
    (by decide) (fun _ h => AttemptOutcome.noConfusion h)).1

/-- C2: both orchestrators report overall success exactly when
`successful_batches > 0`, independently of `failed_batches`. -/
theorem c2_success_predicate (outcome : Nat → Nat → AttemptOutcome)
    (maxRetries : Nat) (batches : List (List (List Int)))
    (single : Nat → Bool) (votingPageReady : Bool)
    (batches2 : List (List (List Int))) :
    ((process_data_batches outcome maxRetries batches).1 = true ↔
      0 < (process_data_batches outcome maxRetries batches).2.successful_batches) ∧
    ((process_all_batches single votingPageReady batches2).1 = true ↔
      0 < (process_all_batches single votingPageReady batches2).2.successful_batches) := by
  constructor
  · rw [process_data_batches]
    by_cases h : batches.isEmpty
    · simp [h, ProcessingStats.successful_batches]
    · simp [h]
  · rw [process_all_batches]
    by_cases hr : votingPageReady
    · by_cases h : batches2.isEmpty
      · simp [h, hr, TotoStats.successful_batches]
      · simp [h, hr]
    · simp [hr, TotoStats.successful_batches]

/-- C2 witness: a run whose single batch succeeds on the first attempt is
reported successful, and the success flag of the all-batches path follows
the counter as well. -/
theorem c2_witness :
    0 < (process_data_batches (fun _ _ => AttemptOutcome.success) 3
      [[[0]]]).2.successful_batches :=
  (c2_success_predicate (fun _ _ => AttemptOutcome.success) 3 [[[0]]]
    (fun _ => true) true [[[0]]]).1.mp (by decide)

/-! ## CSV batch splitting (src/data_handler.py lines 95–119)

`split_data_into_batches` slices `self.data` as
`for i in range(0, len(self.data), batch_size): batches.append(self.data[i:i+batch_size])`.
The recursion is fuel-indexed with fuel = number of rows, which suffices
for any positive batch size (each step consumes at least one row; the
claims only concern the default size 10). -/

def splitChunks (batchSize : Nat) : Nat → List (List Int) → List (List (List Int))
  | 0, _ => []
  | _ + 1, [] => []
  | fuel + 1, row :: rest =>
    (row :: rest).take batchSize ::
      splitChunks batchSize fuel ((row :: rest).drop batchSize)

/-- DataHandler.split_data_into_batches (src/data_handler.py lines 95–119):
an empty data set yields no batches (lines 108–110), otherwise consecutive
slices of `batchSize` rows.  The default batch size is
`Config.MAX_SETS_PER_BATCH = 10`. -/
def split_data_into_batches (data : List (List Int)) (batchSize : Nat) :
    List (List (List Int)) :=
  if data.isEmpty then [] else splitChunks batchSize data.length data

theorem splitChunks_join :
    ∀ (fuel : Nat) (data : List (List Int)), data.length ≤ fuel →
      (splitChunks 10 fuel data).flatten = data := by
  intro fuel
  induction fuel with
  | zero =>
    intro data h
    rw [Nat.le_zero, List.length_eq_zero] at h
    subst h
    rfl
  | succ n ih =>
    intro data h
    cases data with
    | nil => rfl
    | cons row rest =>
      rw [splitChunks, List.flatten_cons, ih ((row :: rest).drop 10)
        (by simp only [List.length_drop, List.length_cons] at h ⊢; omega)]
      exact List.take_append_drop 10 (row :: rest)

theorem splitChunks_length :
    ∀ (fuel : Nat) (data : List (List Int)), data.length ≤ fuel →
      (splitChunks 10 fuel data).length = (data.length + 9) / 10 := by
  intro fuel
  induction fuel with
  | zero =>
    intro data h
    rw [Nat.le_zero, List.length_eq_zero] at h
    subst h
    rfl
  | succ n ih =>
    intro data h
    cases data with
    | nil => rfl
    | cons row rest =>
      rw [splitChunks, List.length_cons, ih ((row :: rest).drop 10)
        (by simp only [List.length_drop, List.length_cons] at h ⊢; omega)]
      simp only [List.length_drop, List.length_cons]
      omega

theorem splitChunks_sizes :
    ∀ (fuel : Nat) (data : List (List Int)), data.length ≤ fuel →
      ∀ b ∈ splitChunks 10 fuel data, b ≠ [] ∧ b.length ≤ 10 := by
  intro fuel
  induction fuel with
  | zero =>
    intro data h
    rw [Nat.le_zero, List.length_eq_zero] at h
    subst h
    intro b hb
    exact absurd hb (by simp [splitChunks])
  | succ n ih =>
    intro data h
    cases data with
    | nil => intro b hb; exact absurd hb (by simp [splitChunks])
    | cons row rest =>
      intro b hb
      rw [splitChunks, List.mem_cons] at hb
      rcases hb with hb | hb
      · subst hb
        refine ⟨by simp, ?_⟩
        simp [List.length_take]
      · exact ih ((row :: rest).drop 10) (by simp only [List.length_drop, List.length_cons] at h ⊢; omega) b hb

/-- C3: for a data set of N rows and the default batch size 10,
`split_data_into_batches` returns exactly ⌈N/10⌉ batches, every batch is
non-empty with at most 10 rows, and concatenating the batches in order
reproduces the original row sequence. -/
theorem c3_batch_split (data : List (List Int)) :
    (split_data_into_batches data 10).length = (data.length + 9) / 10 ∧
    (∀ b ∈ split_data_into_batches data 10, b ≠ [] ∧ b.length ≤ 10) ∧
    (split_data_into_batches data 10).flatten = data := by
  rw [split_data_into_batches]
  by_cases h : data.isEmpty
  · rw [List.isEmpty_iff] at h
    subst h
    exact ⟨rfl, by simp, rfl⟩
  · simp only [h, Bool.false_eq_true, if_false]
    exact ⟨splitChunks_length data.length data le_rfl,
      splitChunks_sizes data.length data le_rfl,
      splitChunks_join data.length data le_rfl⟩

/-- C3 witness: 25 rows split into batches of sizes 10, 10, 5; the first
batch is non-empty with at most 10 rows. -/
theorem c3_witness :
    (List.replicate 10 ([1] : List Int) ≠ [] ∧
      (List.replicate 10 ([1] : List Int)).length ≤ 10) ∧
    (split_data_into_batches (List.replicate 25 [1]) 10).map List.length =
      [10, 10, 5] :=
  ⟨(c3_batch_split (List.replicate 25 [1])).2.1 (List.replicate 10 [1])
    (by decide), by decide⟩

/-! ## CSV loading and validation (src/data_handler.py lines 21–93)

`load_csv_data` checks file existence, reads the CSV with pandas
(`header=None`), validates the resulting frame, and only then overwrites
`self.data` / `self.total_sets`.  The pandas read is modelled as an
already-performed parse result; a cell is either a parsed integer or NaN.
Non-integer parse artefacts are outside the model: any such cell would
fail the `value not in Config.VALID_VALUES` test just like an out-of-range
integer. -/

/-- One parsed CSV cell: an integer value or NaN (missing). -/
inductive CsvCell where
  | nan
  | val (v : Int)
deriving DecidableEq

/-- The possible results of `Path.exists` plus `pd.read_csv` (lines 29–38
and the except-clauses at lines 51–59): file missing, empty-file error,
parser error, any other exception, or a parsed rectangular frame with
`ncols` columns. -/
inductive CsvReadResult where
  | missing
  | emptyData
  | parseError
  | otherError
  | frame (ncols : Nat) (rows : List (List CsvCell))
deriving DecidableEq

/-- The (`self.data`, `self.total_sets`) pair of a DataHandler
(src/data_handler.py lines 16–19 initialise it to `([], 0)`). -/
structure DataHandlerState where
  data : List (List Int)
  total_sets : Nat
deriving DecidableEq

/-- A freshly constructed handler: empty data, zero sets. -/
def initialHandlerState : DataHandlerState := ⟨[], 0⟩

/-- Per-cell validation (lines 82–90): NaN fails, and the value must be in
`Config.VALID_VALUES`. -/
def cellValid (c : CsvCell) : Bool :=
  match c with
  | .nan => false
  | .val v => decide (v ∈ VALID_VALUES)

/-- DataHandler._validate_dataframe (src/data_handler.py lines 61–93):
empty frame fails, column count must equal `Config.EXPECTED_COLUMNS`, and
every cell of every row must be valid. -/
def _validate_dataframe (ncols : Nat) (rows : List (List CsvCell)) : Bool :=
  if rows.isEmpty then false
  else if ncols ≠ EXPECTED_COLUMNS then false
  else rows.all fun row => row.all cellValid

/-- The `df.values.tolist()` conversion (line 45); NaN cannot survive
validation, so its image is irrelevant (0 chosen). -/
def cellToInt (c : CsvCell) : Int :=
  match c with
  | .nan => 0
  | .val v => v

/-- DataHandler.load_csv_data (src/data_handler.py lines 21–59): returns
False on a missing file or any read error; on a parsed frame it validates
and only on success replaces the handler state with the converted rows and
their count. -/
def load_csv_data (file : CsvReadResult) (st : DataHandlerState) :
    Bool × DataHandlerState :=
  match file with
  | .missing => (false, st)
  | .emptyData => (false, st)
  | .parseError => (false, st)
  | .otherError => (false, st)
  | .frame ncols rows =>
    if _validate_dataframe ncols rows then
      (true, { data := rows.map (fun row => row.map cellToInt),
               total_sets := rows.length })
    else
      (false, st)

/-- C7: DataHandler.load_csv_data returns True exactly when the file exists
and parses into a frame with exactly 13 columns whose every cell is a
non-NaN value in 0, 1, 2; whenever it returns False the handler state is
unchanged (so a fresh handler keeps empty data and total_sets = 0). -/
theorem c7_load_csv (file : CsvReadResult) (st : DataHandlerState) :
    ((load_csv_data file st).1 = true ↔
      ∃ ncols rows, file = CsvReadResult.frame ncols rows ∧
        rows ≠ [] ∧ ncols = EXPECTED_COLUMNS ∧
        ∀ row ∈ rows, ∀ c ∈ row, ∃ v, c = CsvCell.val v ∧ v ∈ VALID_VALUES) ∧
    ((load_csv_data file st).1 = false → (load_csv_data file st).2 = st) := by
  cases file with
  | missing => exact ⟨by simp [load_csv_data], fun _ => rfl⟩
  | emptyData => exact ⟨by simp [load_csv_data], fun _ => rfl⟩
  | parseError => exact ⟨by simp [load_csv_data], fun _ => rfl⟩
  | otherError => exact ⟨by simp [load_csv_data], fun _ => rfl⟩
  | frame ncols rows =>
    rw [load_csv_data]
    by_cases hval : _validate_dataframe ncols rows
    · rw [if_pos hval]
      rw [_validate_dataframe] at hval
      constructor
      · constructor
        · intro _
          refine ⟨ncols, rows, rfl, ?_, ?_, ?_⟩
          · intro h
            subst h
            simp at hval
          · by_contra hc
            simp [hc] at hval
          · intro row hrow c hc
            have hall : rows.all (fun row => row.all cellValid) = true := by
              by_cases he : rows.isEmpty
              · simp [he] at hval
              · by_cases hcols : ncols = EXPECTED_COLUMNS
                · simpa [he, hcols] using hval
                · simp [he, hcols] at hval
            have hcell := (List.all_eq_true.mp
              ((List.all_eq_true.mp hall) row hrow)) c hc
            cases c with
            | nan => exact absurd hcell (by simp [cellValid])
            | val v =>
              refine ⟨v, rfl, ?_⟩
              simpa [cellValid] using hcell
        · intro _; rfl
      · intro h
        exact absurd h (by simp)
    · rw [if_neg hval]
      rw [_validate_dataframe] at hval
      constructor
      · constructor
        · intro h
          exact absurd h (by simp)
        · intro ⟨ncols2, rows2, heq, hne, hcols, hcells⟩
          obtain ⟨h1, h2⟩ : ncols = ncols2 ∧ rows = rows2 := by
            injection heq with h1 h2
            exact ⟨h1, h2⟩
          subst h1; subst h2
          exfalso
          apply hval
          rw [if_neg (by simp [hne]), if_neg (by simp [hcols])]
          rw [List.all_eq_true]
          intro row hrow
          rw [List.all_eq_true]
          intro c hc
          obtain ⟨v, hcv, hvv⟩ := hcells row hrow c hc
          subst hcv
          simp [cellValid, hvv]
      · intro _; rfl

/-- C7 witness: a 13-column frame containing a NaN cell is rejected and the
fresh handler state is unchanged. -/
theorem c7_witness :
    (load_csv_data (CsvReadResult.frame 13 [[CsvCell.nan]])
      initialHandlerState).2 = initialHandlerState :=
  (c7_load_csv (CsvReadResult.frame 13 [[CsvCell.nan]])
    initialHandlerState).2 (by decide)

/-! ## Action recording data model (src/action_manager.py)

`ActionStep` and `ActionSequence` are dataclasses serialized to JSON.  The
JSON data model is embedded as `JValue` (Python's `json` module
distinguishes ints from floats, hence separate constructors; `json.dump`
followed by `json.load` is the identity on this data model, so a saved
file is represented by the dumped value itself).  The embedding types the
dictionary fields as the dataclass annotations do; Python performs no
runtime type check, so `from_dict` is modelled on annotation-typed
dictionaries and returns `none` elsewhere. -/

inductive JValue where
  | null
  | bool (b : Bool)
  | int (n : Int)
  | num (q : Rat)
  | str (s : String)
  | arr (elems : List JValue)
  | obj (fields : List (String × JValue))

/-- ActionStep (src/action_manager.py lines 29–49): field names, order and
defaults exactly as in the dataclass. -/
structure ActionStep where
  action : String
  selector : Option String := none
  value : Option String := none
  description : Option String := none
  wait_before : Rat := 0
  wait_after : Rat := 1
  timeout : Rat := 10
  optional : Bool := false
  retry_count : Int := 3

/-- ActionSequence (src/action_manager.py lines 51–70): a metadata
dictionary and an ordered list of steps. -/
structure ActionSequence where
  metadata : List (String × JValue)
  batch_actions : List ActionStep

/-- Python `Optional[str]` values serialize to JSON null or a string. -/
def optStrToJ (o : Option String) : JValue :=
  match o with
  | none => JValue.null
  | some s => JValue.str s

/-- ActionStep.to_dict = dataclasses.asdict (line 42–44): the nine fields
in declaration order. -/
def ActionStep.toDict (st : ActionStep) : JValue :=
  JValue.obj
    [("action", JValue.str st.action),
     ("selector", optStrToJ st.selector),
     ("value", optStrToJ st.value),
     ("description", optStrToJ st.description),
     ("wait_before", JValue.num st.wait_before),
     ("wait_after", JValue.num st.wait_after),
     ("timeout", JValue.num st.timeout),
     ("optional", JValue.bool st.optional),
     ("retry_count", JValue.int st.retry_count)]

/-- Python dict lookup `d[k]` / `d.get(k)` on the association-list model
(first match; `json.load` never produces duplicate keys). -/
def jLookup (fields : List (String × JValue)) (k : String) : Option JValue :=
  match fields with
  | [] => none
  | (k2, v) :: rest => if k2 = k then some v else jLookup rest k

def asStr (j : JValue) : Option String :=
  match j with
  | .str s => some s
  | _ => none

def asOptStr (j : JValue) : Option (Option String) :=
  match j with
  | .null => some none
  | .str s => some (some s)
  | _ => none

def asNum (j : JValue) : Option Rat :=
  match j with
  | .num q => some q
  | _ => none

def asBool (j : JValue) : Option Bool :=
  match j with
  | .bool b => some b
  | _ => none

def asInt (j : JValue) : Option Int :=
  match j with
  | .int n => some n
  | _ => none

/-- Field lookup with a dataclass default: a missing key takes the default,
a present key must parse at the annotated type. -/
def jGetD (fields : List (String × JValue)) (k : String)
    (parse : JValue → Option β) (dflt : β) : Option β :=
  match jLookup fields k with
  | none => some dflt
  | some v => parse v

/-- The keyword names accepted by `ActionStep(**data)`. -/
def stepFieldNames : List String :=
  ["action", "selector", "value", "description", "wait_before",
   "wait_after", "timeout", "optional", "retry_count"]

/-- ActionStep.from_dict = `cls(**data)` (lines 46–49): every key must be a
dataclass field (otherwise `cls(**data)` raises a TypeError, caught by the
caller), `action` is required, every other field falls back to its
default. -/
def ActionStep.fromDict (j : JValue) : Option ActionStep := do
  let fields ← match j with
    | .obj fs => some fs
    | _ => none
  if fields.all (fun kv => stepFieldNames.contains kv.1) then
    let action ← (jLookup fields "action").bind asStr
    let selector ← jGetD fields "selector" asOptStr none
    let value ← jGetD fields "value" asOptStr none
    let description ← jGetD fields "description" asOptStr none
    let wait_before ← jGetD fields "wait_before" asNum 0
    let wait_after ← jGetD fields "wait_after" asNum 1
    let timeout ← jGetD fields "timeout" asNum 10
    let optional ← jGetD fields "optional" asBool false
    let retry_count ← jGetD fields "retry_count" asInt 3
    pure { action, selector, value, description, wait_before, wait_after,
           timeout, optional, retry_count }
  else
    none

/-- ActionSequence.to_dict (lines 57–62). -/
def ActionSequence.toDict (s : ActionSequence) : JValue :=
  JValue.obj
    [("metadata", JValue.obj s.metadata),
     ("batch_actions", JValue.arr (s.batch_actions.map ActionStep.toDict))]

/-- The list comprehension `[ActionStep.from_dict(a) for a in ...]`: each
element is converted in order, any failure propagating. -/
def mapMOption (f : α → Option β) : List α → Option (List β)
  | [] => some []
  | a :: l => do
    let b ← f a
    let rest ← mapMOption f l
    pure (b :: rest)

/-- ActionSequence.from_dict (lines 64–70): `data.get("metadata", {})` and
`data.get("batch_actions", [])`, each step rebuilt by
`ActionStep.from_dict`. -/
def ActionSequence.fromDict (j : JValue) : Option ActionSequence := do
  let fields ← match j with
    | .obj fs => some fs
    | _ => none
  let metadata ← match jLookup fields "metadata" with
    | none => some []
    | some (.obj m) => some m
    | some _ => none
  let actionsJ ← match jLookup fields "batch_actions" with
    | none => some []
    | some (.arr xs) => some xs
    | some _ => none
  let steps ← mapMOption ActionStep.fromDict actionsJ
  pure { metadata, batch_actions := steps }

/-- Python `dict[k] = v` on the association-list model: replace in place if
the key exists (keeping its position), append otherwise. -/
def dictSet (fields : List (String × JValue)) (k : String) (v : JValue) :
    List (String × JValue) :=
  match fields with
  | [] => [(k, v)]
  | (k2, v2) :: rest =>
    if k2 = k then (k2, v) :: rest else (k2, v2) :: dictSet rest k v

/-- Python `dict.update({...})`: successive `dict[k] = v` assignments. -/
def dictUpdate (fields : List (String × JValue))
    (kvs : List (String × JValue)) : List (String × JValue) :=
  kvs.foldl (fun acc kv => dictSet acc kv.1 kv.2) fields

/-- The in-place `actions.metadata.update(...)` performed by
ActionFileManager.save_actions (src/action_manager.py lines 93–98). -/
def saveMetadataUpdate (s : ActionSequence) (savedAt : String) : ActionSequence :=
  { s with
      metadata := dictUpdate s.metadata
        [("version", JValue.str "1.0"),
         ("saved_at", JValue.str savedAt),
         ("total_actions", JValue.int s.batch_actions.length)] }

/-- ActionFileManager.save_actions (src/action_manager.py lines 79–108):
mutates the sequence's metadata in place, then writes
`json.dump(actions.to_dict())`.  Returns the mutated sequence (the caller
still holds it) and the file content. -/
def save_actions (s : ActionSequence) (savedAt : String) :
    ActionSequence × JValue :=
  (saveMetadataUpdate s savedAt, (saveMetadataUpdate s savedAt).toDict)

/-- ActionFileManager.load_actions (src/action_manager.py lines 110–136):
`none` for a missing file, otherwise `ActionSequence.from_dict` of the
parsed JSON. -/
def load_actions (file : Option JValue) : Option ActionSequence :=
  match file with
  | none => none
  | some j => ActionSequence.fromDict j

theorem actionStep_fromDict_toDict (st : ActionStep) :
    ActionStep.fromDict st.toDict = some st := by
  cases st with
  | mk action selector value description wb wa t o rc =>
    cases selector <;> cases value <;> cases description <;> rfl

theorem mapMOption_fromDict_toDict (steps : List ActionStep) :
    mapMOption ActionStep.fromDict (steps.map ActionStep.toDict) = some steps := by
  induction steps with
  | nil => rfl
  | cons a l ih =>
    simp [mapMOption, actionStep_fromDict_toDict, ih]

theorem actionSequence_fromDict_toDict (s : ActionSequence) :
    ActionSequence.fromDict s.toDict = some s := by
  cases s with
  | mk metadata batch_actions =>
    simp [ActionSequence.fromDict, ActionSequence.toDict, jLookup,
      mapMOption_fromDict_toDict]

/-- C8: an action sequence round-trips losslessly:
`ActionSequence.from_dict (s.to_dict) = s` exactly, and saving with
ActionFileManager.save_actions then loading with load_actions yields
precisely the sequence held by the caller after the save (same metadata —
which save_actions has updated in place, see C10 — and the very same steps
in the same order as s). -/
theorem c8_roundtrip :
    (∀ s : ActionSequence, ActionSequence.fromDict s.toDict = some s) ∧
    (∀ (s : ActionSequence) (savedAt : String),
      load_actions (some (save_actions s savedAt).2) =
        some (save_actions s savedAt).1 ∧
      (save_actions s savedAt).1.batch_actions = s.batch_actions) :=
  ⟨actionSequence_fromDict_toDict,
   fun _ _ => ⟨actionSequence_fromDict_toDict _, rfl⟩⟩

theorem jLookup_dictSet_self (d : List (String × JValue)) (k : String)
    (v : JValue) : jLookup (dictSet d k v) k = some v := by
  induction d with
  | nil => simp [dictSet, jLookup]
  | cons kv rest ih =>
    obtain ⟨k2, v2⟩ := kv
    by_cases h : k2 = k
    · subst h; simp [dictSet, jLookup]
    · simp [dictSet, jLookup, h, ih]

theorem jLookup_dictSet_ne (d : List (String × JValue)) (k k2 : String)
    (v : JValue) (h : k ≠ k2) :
    jLookup (dictSet d k v) k2 = jLookup d k2 := by
  induction d with
  | nil => simp [dictSet, jLookup, h]
  | cons kv rest ih =>
    obtain ⟨k3, v3⟩ := kv
    by_cases h3 : k3 = k
    · subst h3
      simp [dictSet, jLookup, h]
    · simp [dictSet, jLookup, h3, ih]

/-- C10: ActionFileManager.save_actions mutates its argument's metadata
dictionary in place before writing: afterwards the keys version, saved_at
and total_actions hold the injected values (overwriting any previous
values), every other key is untouched, and the batch_actions list — hence
every step and its fields — is unchanged. -/
theorem c10_save_metadata (s : ActionSequence) (savedAt : String) :
    jLookup (save_actions s savedAt).1.metadata "version" =
      some (JValue.str "1.0") ∧
    jLookup (save_actions s savedAt).1.metadata "saved_at" =
      some (JValue.str savedAt) ∧
    jLookup (save_actions s savedAt).1.metadata "total_actions" =
      some (JValue.int s.batch_actions.length) ∧
    (∀ k, k ≠ "version" → k ≠ "saved_at" → k ≠ "total_actions" →
      jLookup (save_actions s savedAt).1.metadata k = jLookup s.metadata k) ∧
    (save_actions s savedAt).1.batch_actions = s.batch_actions := by
  have hmeta : (save_actions s savedAt).1.metadata =
      dictSet (dictSet (dictSet s.metadata "version" (JValue.str "1.0"))
        "saved_at" (JValue.str savedAt))
        "total_actions" (JValue.int s.batch_actions.length) := rfl
  refine ⟨?_, ?_, ?_, ?_, rfl⟩
  · rw [hmeta, jLookup_dictSet_ne _ _ _ _ (by decide),
      jLookup_dictSet_ne _ _ _ _ (by decide), jLookup_dictSet_self]
  · rw [hmeta, jLookup_dictSet_ne _ _ _ _ (by decide), jLookup_dictSet_self]
  · rw [hmeta, jLookup_dictSet_self]
  · intro k h1 h2 h3
    rw [hmeta, jLookup_dictSet_ne _ _ _ _ (Ne.symm h3),
      jLookup_dictSet_ne _ _ _ _ (Ne.symm h2),
      jLookup_dictSet_ne _ _ _ _ (Ne.symm h1)]

/-- C10 witness: saving a sequence with one metadata key and no steps
leaves the unrelated key bound to its old value. -/
theorem c10_witness :
    jLookup (save_actions ⟨[("name", JValue.str "x")], []⟩
      "2026-10-12T00:00:00").1.metadata "name" =
      jLookup ([("name", JValue.str "x")]) "name" :=
  (c10_save_metadata ⟨[("name", JValue.str "x")], []⟩
    "2026-10-12T00:00:00").2.2.2.1 "name" (by decide) (by decide) (by decide)

/-! ## Exception-propagation policy (src/form_filler.py lines 39/94–96 and
294/556–558)

Both `fill_voting_form` and `submit_form` wrap their entire body in
`try: ... except Exception: ... return False`.  The underlying browser
driver is modelled as able to raise on any call; the body of
`fill_voting_form` is re-run with a raising click oracle so that the outer
handler is exercised, and the 260-line browser-interaction body of
`submit_form` is an opaque `Except`-valued computation — the claim is
purely about the wrapper. -/

/-- Exceptions the browser driver layer can raise. -/
inductive DriverError where
  | noSuchElement
  | notInteractable
  | sessionCrashed
  | scriptError
deriving DecidableEq

/-- The `except Exception: return False` conversion shared by both
functions. -/
def exceptToBool (body : Except DriverError Bool) : Bool :=
  match body with
  | .ok b => b
  | .error _ => false

/-- The body of `fill_voting_form` (lines 40–92) with a click step that may
itself raise: identical control flow to `fillGo`, in the exception
monad. -/
def fillGoE (step : Nat → Nat → Int → Except DriverError Bool)
    (batch : List (List Int)) : List (Nat × Nat) → Except DriverError Bool
  | [] => .ok true
  | (g, s) :: rest =>
    match batch[s]? with
    | none => .ok false
    | some row =>
      match row[g]? with
      | none => .ok false
      | some csvValue =>
        match voteMap csvValue with
        | none => .ok false
        | some v =>
          match step g s v with
          | .error e => .error e
          | .ok true => fillGoE step batch rest
          | .ok false => .ok false

/-- The try-block body of fill_voting_form over all required cells. -/
def fill_voting_form_body (step : Nat → Nat → Int → Except DriverError Bool)
    (batch : List (List Int)) : Except DriverError Bool :=
  fillGoE step batch (cellOrder MAX_GAMES_PER_SET (min batch.length MAX_SETS_PER_BATCH))

/-- fill_voting_form with its outer exception handler (lines 94–96). -/
def fill_voting_form_caught (step : Nat → Nat → Int → Except DriverError Bool)
    (batch : List (List Int)) : Bool :=
  exceptToBool (fill_voting_form_body step batch)

/-- FormFiller.submit_form (src/form_filler.py lines 287–558): the whole
browser-interaction body (lines 295–554) is opaque to the
exception-propagation claim and passed as an `Except`-valued computation;
the outer handler (lines 556–558) converts any exception to False. -/
def submit_form (body : Except DriverError Bool) : Bool :=
  exceptToBool body

/-- C9: fill_voting_form and submit_form never propagate an exception: for
every batch and every driver behaviour — including raising ones — each
function returns a boolean, with any exception from the body converted to
False and a normally returned boolean passed through. -/
theorem c9_exception_policy :
    (∀ step batch e, fill_voting_form_body step batch = Except.error e →
      fill_voting_form_caught step batch = false) ∧
    (∀ step batch b, fill_voting_form_body step batch = Except.ok b →
      fill_voting_form_caught step batch = b) ∧
    (∀ (body : Except DriverError Bool) e, body = Except.error e →
      submit_form body = false) ∧
    (∀ (body : Except DriverError Bool) b, body = Except.ok b →
      submit_form body = b) := by
  refine ⟨?_, ?_, ?_, ?_⟩
  · intro step batch e h
    rw [fill_voting_form_caught, h]
    rfl
  · intro step batch b h
    rw [fill_voting_form_caught, h]
    rfl
  · intro body e h
    rw [submit_form, h]
    rfl
  · intro body b h
    rw [submit_form, h]
    rfl

/-- C9 witness: a driver whose click raises a session-crash exception makes
fill_voting_form return False rather than propagate. -/
theorem c9_witness :
    fill_voting_form_caught
      (fun _ _ _ => Except.error DriverError.sessionCrashed) [[1]] = false :=
  c9_exception_policy.1 (fun _ _ _ => Except.error DriverError.sessionCrashed)
    [[1]] DriverError.sessionCrashed rfl
